import Mathlib

/-!
Verification of the biblebot-scraper library API against its specification.

The development shallow-embeds the two source files
`src/biblebot/api/library.py` and `src/biblebot/api/lib.py` (namespaces
`LibraryPy` and `LibPy` below).  The classes those files import from
`biblebot/api/base.py`, `biblebot/api/common.py` and
`biblebot/reqeust/base.py` are not part of the sources; they are modelled
from the specification and marked as such in their doc comments.
-/

/-- ASCII lowercase of a character, for case-insensitive header keys. -/
def lowerChar (c : Char) : Char :=
  if 65 ≤ c.toNat ∧ c.toNat ≤ 90 then Char.ofNat (c.toNat + 32) else c

/-- Characters of a string, ASCII-lowercased. -/
def lowerKey (s : String) : List Char :=
  s.toList.map lowerChar

/-- Whitespace test of Python `str.strip`. -/
def isSpaceChar (c : Char) : Bool :=
  c == ' ' || c == '\t' || c == '\n' || c == '\r' || c == '\x0b' || c == '\x0c'

/-- Python `s.strip()`: remove leading and trailing whitespace. -/
def pyStrip (s : String) : String :=
  String.mk (((s.toList.dropWhile isSpaceChar).reverse.dropWhile isSpaceChar).reverse)

/-- Python `s.replace("\n", "")`: drop every newline character. -/
def removeNewlines (s : String) : String :=
  String.mk (s.toList.filter (fun c => !(c == '\n')))

/-- Python `s[:n]`. -/
def pyTake (s : String) (n : Nat) : String :=
  String.mk (s.toList.take n)

/-- Prefix test over characters. -/
def strHasPrefix (s pre : String) : Bool :=
  s.toList.take pre.toList.length == pre.toList

/-- Split a character list at a separator, as Python `str.split(sep)` for a
one-character separator. -/
def splitOnChar (sep : Char) : List Char → List (List Char)
  | [] => [[]]
  | c :: cs =>
    if c == sep then
      [] :: splitOnChar sep cs
    else
      match splitOnChar sep cs with
      | [] => [[c]]
      | g :: gs => (c :: g) :: gs

/-- Decimal reading of an all-digit nonempty string. -/
def strToNat? (s : String) : Option Nat :=
  if s.toList ≠ [] ∧ s.toList.all (fun c => c.isDigit) then
    some (s.toList.foldl (fun acc c => acc * 10 + (c.toNat - 48)) 0)
  else
    none

/-- Modelled from the spec: the Document Query capability of spec section 6.
An HTML element exposes its text, attribute reads and selector queries; the
concrete parsed-document view lives in `biblebot/reqeust/base.py`, which is
not part of the sources.  An element is its text, an attribute table, and a
table mapping each selector string to the elements it matches, in document
order. -/
inductive Element : Type where
  | mk (txt : String) (attrs : List (String × String)) (queries : List (String × List Element)) : Element

/-- Text content of an element, as BeautifulSoup's `.text`. -/
def Element.text : Element → String
  | .mk t _ _ => t

/-- Attribute lookup, as `tag["key"]`; `none` models a `KeyError`. -/
def Element.attr : Element → String → Option String
  | .mk _ a _, k => a.lookup k

/-- All elements matched by a selector, as `tag.select(sel)`. -/
def Element.select : Element → String → List Element
  | .mk _ _ q, s => (q.lookup s).getD []

/-- First element matched by a selector, as `tag.select_one(sel)`. -/
def Element.selectOne (e : Element) (s : String) : Option Element :=
  (e.select s).head?

/-- Modelled from the spec: the Response model of spec section 3
(`biblebot/reqeust/base.py` is not part of the sources): status code,
case-insensitive header mapping, cookie mapping, raw body bytes, the
originating URL and the parsed document view. -/
structure Response where
  status : Nat
  url : String
  headers : List (String × String)
  cookies : List (String × String)
  raw : List Nat
  soup : Element

/-- Case-insensitive header lookup; `none` models both a failed `in` test
and a `KeyError` on subscripting. -/
def Response.header? (r : Response) (k : String) : Option String :=
  (r.headers.find? (fun p => lowerKey p.fst == lowerKey k)).map Prod.snd

/-- Extracted field values carried inside a parse result's `data`/`error`
dictionaries. -/
inductive Value : Type where
  | str (s : String)
  | num (n : Nat)
  | bytes (b : List Nat)
  | strMap (m : List (String × String))
  | strList (xs : List String)
  | table (rows : List (List String))
deriving DecidableEq

/-- The two-variant outcome type `ResourceData | ErrorData` of
`biblebot/api/base.py` (spec section 3), each variant carrying the
originating resource link. -/
inductive APIResponseType : Type where
  | resourceData (data : List (String × Value)) (link : String)
  | errorData (error : List (String × Value)) (link : String)
deriving DecidableEq

/-- Faults a parse can raise: an explicit `ParsingError` as in
`biblebot/exceptions`, or a Python runtime error (AttributeError,
IndexError, KeyError, TypeError) from dereferencing a missing node. -/
inductive Fault : Type where
  | parsingError (msg : String)
  | runtimeError (msg : String)
deriving DecidableEq

/-- The observable outcome of calling a `parse` classmethod: a returned
value, the implicit Python `None` return, or a raised exception. -/
inductive ParseResult : Type where
  | ok (r : APIResponseType)
  | retNone
  | fault (f : Fault)
deriving DecidableEq

/-- Python `xs[i] = v` for nonnegative `i`; `none` models the `IndexError`
raised when `i` is out of range. -/
def pySet (xs : List α) (i : Nat) (v : α) : Option (List α) :=
  if i < xs.length then some (xs.set i v) else none

/-- Python `xs[-1] = v`; `none` models the `IndexError` on an empty list. -/
def pySetLast (xs : List α) (v : α) : Option (List α) :=
  if xs.length = 0 then none else some (xs.set (xs.length - 1) v)

/-- Python `del xs[i]` for nonnegative `i`; `none` models the
`IndexError` raised when `i` is out of range. -/
def pyDel (xs : List α) (i : Nat) : Option (List α) :=
  if i < xs.length then some (xs.eraseIdx i) else none

/-- Longest run of ASCII digits at the front of a character list. -/
def digitRun (cs : List Char) : List Char :=
  cs.takeWhile (fun c => c.isDigit)

/-- Scan for the first occurrence of the literal `ErrorCode=` followed by
at least one digit and return the maximal digit run, as
`re.search(r"ErrorCode=(\d+)", s)` in `library.py` line 77. -/
def findErrorCodeAux : List Char → Option String
  | [] => none
  | c :: cs =>
    if (c :: cs).take 10 = "ErrorCode=".toList then
      let ds := digitRun ((c :: cs).drop 10)
      if ds.isEmpty then findErrorCodeAux cs else some (String.mk ds)
    else
      findErrorCodeAux cs

/-- The captured group of `re.search(r"ErrorCode=(\d+)", s)`, when the
pattern matches. -/
def findErrorCode (s : String) : Option String :=
  findErrorCodeAux s.toList

/-- Month abbreviations of the HTTP date format. -/
def monthNum : String → Option Nat
  | "Jan" => some 1
  | "Feb" => some 2
  | "Mar" => some 3
  | "Apr" => some 4
  | "May" => some 5
  | "Jun" => some 6
  | "Jul" => some 7
  | "Aug" => some 8
  | "Sep" => some 9
  | "Oct" => some 10
  | "Nov" => some 11
  | "Dec" => some 12
  | _ => none

/-- Gregorian leap-year test. -/
def isLeap (y : Nat) : Bool :=
  (y % 4 == 0 && y % 100 != 0) || y % 400 == 0

/-- Length of month `m` (1-based) of year `y`. -/
def daysInMonth (y m : Nat) : Nat :=
  if m = 2 then (if isLeap y then 29 else 28)
  else if m = 4 ∨ m = 6 ∨ m = 9 ∨ m = 11 then 30
  else 31

/-- Days from 1970-01-01 to the start of year `1970 + k`. -/
def daysSinceEpochYear : Nat → Nat
  | 0 => 0
  | Nat.succ k => daysSinceEpochYear k + (if isLeap (1970 + k) then 366 else 365)

/-- Days from the start of year `y` to the start of month `k + 1`. -/
def daysBeforeMonth (y : Nat) : Nat → Nat
  | 0 => 0
  | Nat.succ k => daysBeforeMonth y k + daysInMonth y (Nat.succ k)

/-- Modelled from the spec: `httpdate_to_unixtime` lives in
`biblebot/api/common.py`, which is not part of the sources.  Per spec
section 6 it converts an HTTP-format date string such as
`Tue, 15 Mar 2022 04:00:00 GMT` to a Unix timestamp.  Malformed inputs map
to 0. -/
def httpdate_to_unixtime (s : String) : Nat :=
  match (splitOnChar ' ' s.toList).map String.mk with
  | [_, d, mon, y, hms, _] =>
    match strToNat? d, monthNum mon, strToNat? y, (splitOnChar ':' hms.toList).map String.mk with
    | some dd, some mm, some yy, [h, mi, sec] =>
      match strToNat? h, strToNat? mi, strToNat? sec with
      | some hh, some mins, some ss =>
        (daysSinceEpochYear (yy - 1970) + daysBeforeMonth yy (mm - 1) + (dd - 1)) * 86400
          + hh * 3600 + mins * 60 + ss
      | _, _, _ => 0
    | _, _, _, _ => 0
  | _ => 0

/-- Test of `re.match(r"https?://", s)`: the string begins with an
absolute HTTP(S) scheme. -/
def isHttpUrl (s : String) : Bool :=
  strHasPrefix s "http://" || strHasPrefix s "https://"

/-- Session-expired `ErrorData` title shared by both source files. -/
def sessionExpiredTitle : String := "세션이 만료되어 로그인페이지로 리다이렉트 되었습니다."

/-- Modelled from the spec: `ParserPrecondition` in `biblebot/api/base.py`
is not part of the sources.  Per spec section 4.2 the gate runs the
registered checks in order and returns the first blocking `ErrorData`. -/
def runChecks (checks : List (Response → Option APIResponseType)) (r : Response) :
    Option APIResponseType :=
  match checks with
  | [] => none
  | c :: cs =>
    match c r with
    | some e => some e
    | none => runChecks cs r

/-- Modelled from the spec: the precondition gate of spec section 4.2
(`ParserPrecondition` in `biblebot/api/base.py`, not part of the sources):
the first blocking `ErrorData` is returned as the parse result; if no check
blocks, the wrapped parse is invoked and its result returned unchanged. -/
def gate (checks : List (Response → Option APIResponseType))
    (wrapped : Response → ParseResult) (r : Response) : ParseResult :=
  match runChecks checks r with
  | some e => .ok e
  | none => wrapped r

namespace LibraryPy

/-- The checker of `library.py` lines 31-38: a 302 status blocks with the
fixed session-expired title and the response's URL. -/
def SessionExpiredChecker.is_blocking (response : Response) : Option APIResponseType :=
  if response.status == 302 then
    some (.errorData [("title", .str sessionExpiredTitle)] response.url)
  else
    none

/-- `Login.parse` of `library.py` lines 64-95. -/
def Login.parse (response : Response) : ParseResult :=
  match response.header? "location" with
  | none =>
    match response.soup.selectOne ".alert-warning" with
    | none => .fault (.runtimeError "AttributeError: .alert-warning")
    | some alertEl =>
      .ok (.errorData [("title", .str (pyStrip alertEl.text))] response.url)
  | some loc =>
    match findErrorCode loc with
    | some code => .ok (.errorData [("code", .str code)] response.url)
    | none =>
      match response.header? "date" with
      | none => .fault (.runtimeError "KeyError: date")
      | some d =>
        .ok (.resourceData
          [("cookies", .strMap response.cookies),
           ("iat", .num (httpdate_to_unixtime d))] response.url)

/-- `CheckoutList.parse_subject` of `library.py` lines 125-139: trimmed
`th` texts, then `del head[4]`, `head[0] = "ISBN"`, `head[-1] = "도서이미지"`. -/
def CheckoutList.parse_subject (response : Response) : Except Fault (List String) :=
  match response.soup.selectOne ".sponge-guide-Box-table thead tr" with
  | none => .error (.parsingError "테이블 헤드가 존재하지 않습니다.")
  | some thead =>
    match pyDel ((thead.select "th").map (fun th => pyStrip th.text)) 4 with
    | none => .error (.runtimeError "IndexError: del head[4]")
    | some h1 =>
      match pySet h1 0 "ISBN" with
      | none => .error (.runtimeError "IndexError: head[0]")
      | some h2 =>
        match pySetLast h2 "도서이미지" with
        | none => .error (.runtimeError "IndexError: head[-1]")
        | some h3 => .ok h3

/-- One iteration of the row loop in `CheckoutList.parse_main_table`
(`library.py` lines 150-156). -/
def CheckoutList.parse_row (tr : Element) : Except Fault (List String) :=
  match tr.selectOne "td a strong" with
  | none => .error (.runtimeError "AttributeError: td a strong")
  | some strong =>
    match pySet ((tr.select "td").map (fun td => pyStrip td.text)) 1 (pyStrip strong.text) with
    | none => .error (.runtimeError "IndexError: info[1]")
    | some i1 =>
      match (tr.select ".left a").head? with
      | none => .error (.runtimeError "IndexError: .left a [0]")
      | some a =>
        match a.attr "href" with
        | none => .error (.runtimeError "KeyError: href")
        | some href =>
          match pySetLast i1 href with
          | none => .error (.runtimeError "IndexError: info[-1]")
          | some i2 =>
            match pyDel i2 4 with
            | none => .error (.runtimeError "IndexError: del info[4]")
            | some i3 => .ok i3

/-- The row loop of `CheckoutList.parse_main_table`, appending each
extracted row in order and propagating the first raised exception. -/
def CheckoutList.parse_rows : List Element → Except Fault (List (List String))
  | [] => .ok []
  | tr :: rest =>
    match CheckoutList.parse_row tr with
    | .error f => .error f
    | .ok info =>
      match CheckoutList.parse_rows rest with
      | .error f => .error f
      | .ok body => .ok (info :: body)

/-- `CheckoutList.parse_main_table` of `library.py` lines 141-157: raises
`ParsingError` whenever the row selector matches nothing. -/
def CheckoutList.parse_main_table (response : Response) : Except Fault (List (List String)) :=
  if (response.soup.select ".sponge-guide-Box-table tbody tr").isEmpty then
    .error (.parsingError "테이블 바디가 존재하지 않습니다.")
  else
    CheckoutList.parse_rows (response.soup.select ".sponge-guide-Box-table tbody tr")

/-- The body of `CheckoutList.parse` (`library.py` lines 114-123) before
the `_ParserPrecondition` decorator is applied. -/
def CheckoutList.parse_unwrapped (response : Response) : ParseResult :=
  match CheckoutList.parse_subject response with
  | .error f => .fault f
  | .ok head =>
    match CheckoutList.parse_main_table response with
    | .error f => .fault f
    | .ok body =>
      .ok (.resourceData [("head", .strList head), ("body", .table body)] response.url)

/-- `CheckoutList.parse` as exported: the body wrapped by the precondition
gate carrying the session-expired checker. -/
def CheckoutList.parse (response : Response) : ParseResult :=
  gate [SessionExpiredChecker.is_blocking] CheckoutList.parse_unwrapped response

/-- Outcome of `BookDetail.parse` (`library.py` lines 174-183): a plain
two-element list `[isbn, img_url]`, or a raised exception.  This is not an
`APIResponseType`. -/
inductive BookDetailResult : Type where
  | ok (isbn : String) (img_url : Option String)
  | raised (f : Fault)
deriving DecidableEq

/-- `BookDetail.parse` of `library.py` lines 174-183. -/
def BookDetail.parse (response : Response) : BookDetailResult :=
  match (response.soup.select "#detailtoprightnew .sponge-book-list-data")[1]? with
  | none => .raised (.runtimeError "IndexError: [1]")
  | some isbnEl =>
    match response.soup.selectOne ".page-detail-title-image a img" with
    | none => .raised (.runtimeError "TypeError: NoneType is not subscriptable")
    | some img =>
      match img.attr "src" with
      | none => .raised (.runtimeError "KeyError: src")
      | some img_url =>
        if isHttpUrl img_url then .ok (pyStrip isbnEl.text) (some img_url)
        else .ok (pyStrip isbnEl.text) none

/-- `BookPhoto.parse` of `library.py` lines 200-203: the function body is a
single `if` with no `else`, so a non-image content type falls off the end
of the function and returns Python `None`. -/
def BookPhoto.parse (response : Response) : ParseResult :=
  match response.header? "content-type" with
  | none => .fault (.runtimeError "KeyError: content-type")
  | some ct =>
    if pyTake ct 5 == "image" then
      .ok (.resourceData [("raw_image", .bytes response.raw)] response.url)
    else
      .retNone

end LibraryPy

namespace LibPy

/-- The checker of `lib.py` lines 30-38, identical to the one in
`library.py`. -/
def SessionExpiredChecker.is_blocking (response : Response) : Option APIResponseType :=
  if response.status == 302 then
    some (.errorData [("title", .str sessionExpiredTitle)] response.url)
  else
    none

/-- Fixed login-failed `ErrorData` title of `lib.py` line 86. -/
def loginFailedTitle : String := "로그인에 실패하였습니다. 정확한 정보를 입력하세요."

/-- `Login.parse` of `lib.py` lines 76-97: dereferences the info box, its
second `li`, and the `date` header before comparing the `li` text against
the sentinel `HOME`. -/
def Login.parse (response : Response) (cookies : List (String × String)) : ParseResult :=
  match response.soup.selectOne "#sponge-header .infoBox" with
  | none => .fault (.runtimeError "AttributeError: NoneType has no select")
  | some ul =>
    match (ul.select "li")[1]? with
    | none => .fault (.runtimeError "IndexError: li [1]")
    | some liEl =>
      match response.header? "date" with
      | none => .fault (.runtimeError "KeyError: date")
      | some d =>
        if liEl.text == "HOME" then
          .ok (.errorData [("title", .str loginFailedTitle)] response.url)
        else
          .ok (.resourceData
            [("cookies", .strMap cookies),
             ("validate-content", .str liEl.text),
             ("iat", .num (httpdate_to_unixtime d))] response.url)

/-- `Library.parse_subject` of `lib.py` lines 127-139: trimmed `th` texts,
then `del head[4]`, `head[-1] = "도서URL"`. -/
def Library.parse_subject (response : Response) : Except Fault (List String) :=
  match response.soup.selectOne ".sponge-guide-Box-table thead tr" with
  | none => .error (.parsingError "테이블 헤드가 존재하지 않습니다.")
  | some thead =>
    match pyDel ((thead.select "th").map (fun th => pyStrip th.text)) 4 with
    | none => .error (.runtimeError "IndexError: del head[4]")
    | some h1 =>
      match pySetLast h1 "도서URL" with
      | none => .error (.runtimeError "IndexError: head[-1]")
      | some h2 => .ok h2

/-- One iteration of the row loop in `Library.parse_main_table`
(`lib.py` lines 151-170): eight fields read from fixed positions. -/
def Library.parse_row (tr : Element) : Except Fault (List String) :=
  match tr.selectOne ".right5" with
  | none => .error (.runtimeError "AttributeError: .right5")
  | some numEl =>
    match tr.selectOne "td a strong" with
    | none => .error (.runtimeError "AttributeError: td a strong")
    | some titleEl =>
      match (tr.select ".left ul li strong")[0]? with
      | none => .error (.runtimeError "IndexError: strong [0]")
      | some loanEl =>
        match (tr.select ".left ul li strong")[1]? with
        | none => .error (.runtimeError "IndexError: strong [1]")
        | some returnEl =>
          match tr.selectOne "td .textcolorgreen" with
          | none => .error (.runtimeError "AttributeError: .textcolorgreen")
          | some stateEl =>
            match (tr.select "td")[6]? with
            | none => .error (.runtimeError "IndexError: td [6]")
            | some termEl =>
              match (tr.select "td")[7]? with
              | none => .error (.runtimeError "IndexError: td [7]")
              | some termCntEl =>
                match (tr.select ".left a").head? with
                | none => .error (.runtimeError "IndexError: .left a [0]")
                | some aEl =>
                  match aEl.attr "href" with
                  | none => .error (.runtimeError "KeyError: href")
                  | some url =>
                    .ok [removeNewlines numEl.text, titleEl.text,
                         loanEl.text, returnEl.text, stateEl.text,
                         removeNewlines termEl.text,
                         removeNewlines termCntEl.text, url]

/-- The row loop of `Library.parse_main_table`, appending each extracted
row in order and propagating the first raised exception. -/
def Library.parse_rows : List Element → Except Fault (List (List String))
  | [] => .ok []
  | tr :: rest =>
    match Library.parse_row tr with
    | .error f => .error f
    | .ok info =>
      match Library.parse_rows rest with
      | .error f => .error f
      | .ok body => .ok (info :: body)

/-- `Library.parse_main_table` of `lib.py` lines 141-172: raises
`ParsingError` whenever the row selector matches nothing. -/
def Library.parse_main_table (response : Response) : Except Fault (List (List String)) :=
  if (response.soup.select ".sponge-guide-Box-table tbody tr").isEmpty then
    .error (.parsingError "테이블 바디가 존재하지 않습니다.")
  else
    Library.parse_rows (response.soup.select ".sponge-guide-Box-table tbody tr")

/-- The body of `Library.parse` (`lib.py` lines 116-125) before the
`_ParserPrecondition` decorator is applied. -/
def Library.parse_unwrapped (response : Response) : ParseResult :=
  match Library.parse_subject response with
  | .error f => .fault f
  | .ok head =>
    match Library.parse_main_table response with
    | .error f => .fault f
    | .ok body =>
      .ok (.resourceData [("head", .strList head), ("body", .table body)] response.url)

/-- `Library.parse` as exported: the body wrapped by the precondition gate
carrying the session-expired checker. -/
def Library.parse (response : Response) : ParseResult :=
  gate [SessionExpiredChecker.is_blocking] Library.parse_unwrapped response

/-- `BookPhoto.parse` of `lib.py` lines 190-198: validates the `src`
attribute of the cover image for an absolute HTTP(S) prefix. -/
def BookPhoto.parse (response : Response) : ParseResult :=
  match response.soup.selectOne ".page-detail-title-image a img" with
  | none => .fault (.runtimeError "TypeError: NoneType is not subscriptable")
  | some img =>
    match img.attr "src" with
    | none => .fault (.runtimeError "KeyError: src")
    | some img_url =>
      if isHttpUrl img_url then
        .ok (.resourceData [("img_url", .str img_url)] response.url)
      else
        .ok (.errorData [("title", .str "이미지를 불러올 수 없습니다.")] response.url)

end LibPy

/-- Link correctness: whenever a parse returns a variant, that variant's
`link` equals the given URL. -/
def linkOk : ParseResult → String → Prop
  | .ok (.resourceData _ l), u => l = u
  | .ok (.errorData _ l), u => l = u
  | .retNone, _ => True
  | .fault _, _ => True

/-- Two-variant totality with link correctness: the call either raises,
or returns exactly one of the two variants carrying the given URL as its
link; a Python `None` return is excluded. -/
def returnsVariantWithLink : ParseResult → String → Prop
  | .ok (.resourceData _ l), u => l = u
  | .ok (.errorData _ l), u => l = u
  | .retNone, _ => False
  | .fault _, _ => True

/-- Head/body alignment of an extracted table result: when the result is a
`ResourceData` with `head`/`body` fields, every row is as long as the
head. -/
def alignedTable : ParseResult → Bool
  | .ok (.resourceData data _) =>
    match data.lookup "head", data.lookup "body" with
    | some (.strList h), some (.table rows) => rows.all (fun row => row.length == h.length)
    | _, _ => true
  | _ => true

/-- Number of `th` cells of the matched header row (0 when the header row
selector matches nothing). -/
def theadThCount (r : Response) : Nat :=
  match r.soup.selectOne ".sponge-guide-Box-table thead tr" with
  | some thead => (thead.select "th").length
  | none => 0

/-- Leaf element with a text and no attributes or matches. -/
def elLeaf (t : String) : Element := .mk t [] []

/-- Element carrying a single attribute. -/
def elAttr (k v : String) : Element := .mk "" [(k, v)] []

/-- Photo response whose content type is not an image. -/
def rHtmlPhoto : Response :=
  ⟨200, "https://lib.bible.ac.kr/Photo/1", [("content-type", "text/html")], [], [60, 104], elLeaf ""⟩

/-- Photo response whose content type is an image. -/
def rImagePhoto : Response :=
  ⟨200, "https://lib.bible.ac.kr/Photo/2", [("Content-Type", "image/jpeg")], [], [137, 80, 78, 71], elLeaf ""⟩

/-- Photo response with a JSON content type. -/
def rJsonPhoto : Response :=
  ⟨200, "https://lib.bible.ac.kr/Photo/3", [("content-type", "application/json")], [], [123], elLeaf ""⟩

/-- A wrapped parse used to observe the gate's pass-through. -/
def pProbe : Response → ParseResult := fun _ => ParseResult.retNone

/-- Redirected (302) response to a session-bound page. -/
def r302 : Response := ⟨302, "https://lib.bible.ac.kr/MyLibrary", [], [], [], elLeaf ""⟩

/-- Non-redirected (200) response to a session-bound page. -/
def r200 : Response := ⟨200, "https://lib.bible.ac.kr/MyLibrary", [], [], [], elLeaf ""⟩

/-- Header row with six cells, as on the checkout-list page. -/
def theadRow6 : Element :=
  .mk "" []
    [("th", [elLeaf "ISBN ", elLeaf "서지정보", elLeaf "대출일자", elLeaf "반납예정일",
             elLeaf "대출상태", elLeaf "연기신청"])]

/-- Header row with seven cells. -/
def theadRow7 : Element :=
  .mk "" []
    [("th", [elLeaf "ISBN ", elLeaf "서지정보", elLeaf "대출일자", elLeaf "반납예정일",
             elLeaf "대출상태", elLeaf "연기신청", elLeaf "도서이미지원본"])]

/-- Header row with nine cells. -/
def theadRow9 : Element :=
  .mk "" []
    [("th", [elLeaf "번호", elLeaf "서지정보", elLeaf "대출일자", elLeaf "반납예정일",
             elLeaf "대출상태", elLeaf "연기", elLeaf "연기신청", elLeaf "연기횟수",
             elLeaf "도서"])]

/-- Document whose table root and header row are present but whose body
row selector matches zero rows: the table is found but empty. -/
def soupEmptyTable : Element :=
  .mk "" []
    [(".sponge-guide-Box-table", [elLeaf ""]),
     (".sponge-guide-Box-table thead tr", [theadRow6]),
     (".sponge-guide-Box-table tbody tr", [])]

/-- Response carrying a found-but-empty checkout table. -/
def rEmptyTable : Response :=
  ⟨200, "https://lib.bible.ac.kr/MyLibrary", [], [], [], soupEmptyTable⟩

/-- A fully populated body row for the `lib.py` `Library` extraction: all
nine selectors used by `Library.parse_row` match, with eight `td` cells. -/
def trLibRow : Element :=
  .mk "" []
    [(".right5", [elLeaf "1\n"]),
     ("td a strong", [elLeaf "성경과 역사"]),
     (".left ul li strong", [elLeaf "2023-01-01", elLeaf "2023-01-15"]),
     ("td .textcolorgreen", [elLeaf "대출중"]),
     ("td", [elLeaf "1", elLeaf "성경과 역사", elLeaf "a", elLeaf "b", elLeaf "c",
             elLeaf "d", elLeaf "연기", elLeaf "0회"]),
     (".left a", [elAttr "href" "/Search/Detail/123"])]

/-- Document with a six-column header but a body row that extracts to
eight fields: head and rows cannot align. -/
def soupMismatch : Element :=
  .mk "" []
    [(".sponge-guide-Box-table thead tr", [theadRow6]),
     (".sponge-guide-Box-table tbody tr", [trLibRow])]

/-- Response exhibiting the six-column header with an eight-field row. -/
def rMismatch : Response :=
  ⟨200, "https://lib.bible.ac.kr/MyLibrary", [], [], [], soupMismatch⟩

/-- Document with a nine-column header and the eight-field body row: the
aligned case for the `lib.py` `Library` extraction. -/
def soupLibAligned : Element :=
  .mk "" []
    [(".sponge-guide-Box-table thead tr", [theadRow9]),
     (".sponge-guide-Box-table tbody tr", [trLibRow])]

/-- Aligned `lib.py` `Library` response. -/
def rLibAligned : Response :=
  ⟨200, "https://lib.bible.ac.kr/MyLibrary", [], [], [], soupLibAligned⟩

/-- A body row with seven `td` cells for the `library.py` `CheckoutList`
extraction. -/
def trCoRow : Element :=
  .mk "" []
    [("td", [elLeaf "9791158390982", elLeaf "성경과 역사", elLeaf "2023-01-01",
             elLeaf "2023-01-15", elLeaf "대출중", elLeaf "연기신청",
             elLeaf "이미지"]),
     ("td a strong", [elLeaf "성경과 역사 "]),
     (".left a", [elAttr "href" "/Search/Detail/123"])]

/-- Document with a seven-column header and a seven-cell body row: the
aligned case for the `library.py` `CheckoutList` extraction. -/
def soupCoAligned : Element :=
  .mk "" []
    [(".sponge-guide-Box-table thead tr", [theadRow7]),
     (".sponge-guide-Box-table tbody tr", [trCoRow])]

/-- Aligned `library.py` `CheckoutList` response. -/
def rCoAligned : Response :=
  ⟨200, "https://lib.bible.ac.kr/MyLibrary", [], [], [], soupCoAligned⟩

/-- Book-detail document: second data cell carries the ISBN, the cover
image has an absolute HTTPS source. -/
def soupDetail : Element :=
  .mk "" []
    [("#detailtoprightnew .sponge-book-list-data", [elLeaf "단행본", elLeaf " 9791158390982 "]),
     (".page-detail-title-image a img", [elAttr "src" "https://image.example/cover.jpg"])]

/-- Book-detail response. -/
def rDetail : Response :=
  ⟨200, "https://lib.bible.ac.kr/Search/Detail/123", [], [], [], soupDetail⟩

/-- Login response without a `location` header whose markup carries a
warning alert. -/
def rLoginNoLoc : Response :=
  ⟨200, "https://lib.bible.ac.kr/Account/LogOn", [("server", "IIS")], [], [],
   .mk "" [] [(".alert-warning", [elLeaf "  아이디를 입력하세요.  "])]⟩

/-- Login redirect response whose `location` header embeds `ErrorCode=7`. -/
def rLoginErr7 : Response :=
  ⟨302, "https://lib.bible.ac.kr/Account/LogOn",
   [("location", "https://lib.bible.ac.kr/Account/LogOn?ErrorCode=7")], [], [], elLeaf ""⟩

/-- Successful login redirect response: a `location` header without an
error code, a `date` header, and session cookies. -/
def rLoginOk : Response :=
  ⟨302, "https://lib.bible.ac.kr/Account/LogOn",
   [("location", "https://lib.bible.ac.kr/"), ("date", "Tue, 15 Mar 2022 04:00:00 GMT")],
   [("ASP_SessionId", "abc123")], [], elLeaf ""⟩

/-- Info box whose second list item is a user name: the logged-in markup
of the `lib.py` portal variant. -/
def ulUser : Element := .mk "" [] [("li", [elLeaf "님", elLeaf "김성경"])]

/-- Info box whose second list item is the sentinel `HOME`: the
logged-out markup of the `lib.py` portal variant. -/
def ulHome : Element := .mk "" [] [("li", [elLeaf "님", elLeaf "HOME"])]

/-- Successful `lib.py` login response: logged-in info box and a `date`
header. -/
def rLibLoginOk : Response :=
  ⟨200, "http://lib.bible.ac.kr", [("date", "Tue, 15 Mar 2022 04:00:00 GMT")], [], [],
   .mk "" [] [("#sponge-header .infoBox", [ulUser])]⟩

/-- Failed `lib.py` login response: sentinel info box and a `date`
header. -/
def rLibLoginHome : Response :=
  ⟨200, "http://lib.bible.ac.kr", [("date", "Tue, 15 Mar 2022 04:00:00 GMT")], [], [],
   .mk "" [] [("#sponge-header .infoBox", [ulHome])]⟩

/-- Sentinel info box present but no `date` header. -/
def rLibLoginHomeNoDate : Response :=
  ⟨200, "http://lib.bible.ac.kr", [], [], [],
   .mk "" [] [("#sponge-header .infoBox", [ulHome])]⟩

/-- C1: on an image content type, `library.py` `BookPhoto.parse` returns
`ResourceData` whose `raw_image` is the body bytes; but at the failing
input — a response with content type `text/html` — the function body,
a single `if` with no `else`, falls off the end and returns Python `None`,
not the `ErrorData` with title "could not load image" that the claim
states. -/
theorem c1_bookphoto_nonimage_returns_none :
    LibraryPy.BookPhoto.parse rImagePhoto
        = .ok (.resourceData [("raw_image", .bytes [137, 80, 78, 71])]
            "https://lib.bible.ac.kr/Photo/2")
      ∧ LibraryPy.BookPhoto.parse rHtmlPhoto = .retNone := by
  exact ⟨by decide, by decide⟩

/-- C2: the precondition gate carrying the session-expired checker
(`Library.parse` and `CheckoutList.parse` are exactly this gate around
their bodies) short-circuits every 302 response to the fixed-title
`ErrorData` whose link is the response's URL, for every wrapped parse
`p` — so the wrapped parse is never invoked — and on any other status
returns the wrapped parse's result unchanged. -/
theorem c2_gate_short_circuits_on_302 (p : Response → ParseResult) (r : Response) :
    (r.status = 302 →
      gate [LibraryPy.SessionExpiredChecker.is_blocking] p r
          = .ok (.errorData [("title", .str sessionExpiredTitle)] r.url)
        ∧ gate [LibPy.SessionExpiredChecker.is_blocking] p r
          = .ok (.errorData [("title", .str sessionExpiredTitle)] r.url))
    ∧ (r.status ≠ 302 →
      gate [LibraryPy.SessionExpiredChecker.is_blocking] p r = p r
        ∧ gate [LibPy.SessionExpiredChecker.is_blocking] p r = p r) := by
  constructor
  · intro h
    constructor <;>
      simp [gate, runChecks, LibraryPy.SessionExpiredChecker.is_blocking,
        LibPy.SessionExpiredChecker.is_blocking, h]
  · intro h
    constructor <;>
      simp [gate, runChecks, LibraryPy.SessionExpiredChecker.is_blocking,
        LibPy.SessionExpiredChecker.is_blocking, h]

/-- Witness for C2 at concrete inputs: a 302 response is short-circuited
to the session-expired error, a 200 response is handed to the wrapped
parse unchanged. -/
theorem c2_gate_short_circuits_on_302_witness :
    gate [LibraryPy.SessionExpiredChecker.is_blocking] pProbe r302
        = .ok (.errorData [("title", .str sessionExpiredTitle)]
            "https://lib.bible.ac.kr/MyLibrary")
      ∧ gate [LibraryPy.SessionExpiredChecker.is_blocking] pProbe r200 = pProbe r200 :=
  ⟨((c2_gate_short_circuits_on_302 pProbe r302).1 rfl).1,
   ((c2_gate_short_circuits_on_302 pProbe r200).2 (by decide)).1⟩

/-- C6: the redirect-variant `Login.parse` of `library.py` evaluates its
three checks in order, first match winning: with no `location` header it
returns `ErrorData` titled by the warning alert's trimmed text; otherwise
with an embedded `ErrorCode=<n>` it returns `ErrorData` with that code
(regardless of any markup); otherwise, with a `date` header, it returns
`ResourceData` with the response's cookies and `iat`. -/
theorem c6_login_redirect_variant_checks_in_order (r : Response) :
    (∀ alertEl, r.header? "location" = none →
      r.soup.selectOne ".alert-warning" = some alertEl →
      LibraryPy.Login.parse r = .ok (.errorData [("title", .str (pyStrip alertEl.text))] r.url))
    ∧ (∀ loc code, r.header? "location" = some loc →
      findErrorCode loc = some code →
      LibraryPy.Login.parse r = .ok (.errorData [("code", .str code)] r.url))
    ∧ (∀ loc d, r.header? "location" = some loc →
      findErrorCode loc = none →
      r.header? "date" = some d →
      LibraryPy.Login.parse r
        = .ok (.resourceData
            [("cookies", .strMap r.cookies),
             ("iat", .num (httpdate_to_unixtime d))] r.url)) := by
  refine ⟨?_, ?_, ?_⟩
  · intro alertEl h1 h2
    simp [LibraryPy.Login.parse, h1, h2]
  · intro loc code h1 h2
    simp [LibraryPy.Login.parse, h1, h2]
  · intro loc d h1 h2 h3
    simp [LibraryPy.Login.parse, h1, h2, h3]

/-- Witness for C6 at concrete inputs, including the spec's scenario of a
`location` header embedding `ErrorCode=7` yielding code "7". -/
theorem c6_login_redirect_variant_checks_witness :
    LibraryPy.Login.parse rLoginNoLoc
        = .ok (.errorData [("title", .str "아이디를 입력하세요.")]
            "https://lib.bible.ac.kr/Account/LogOn")
      ∧ LibraryPy.Login.parse rLoginErr7
        = .ok (.errorData [("code", .str "7")] "https://lib.bible.ac.kr/Account/LogOn")
      ∧ LibraryPy.Login.parse rLoginOk
        = .ok (.resourceData
            [("cookies", .strMap [("ASP_SessionId", "abc123")]),
             ("iat", .num 1647316800)] "https://lib.bible.ac.kr/Account/LogOn") := by
  refine ⟨?_, ?_, ?_⟩
  · exact (c6_login_redirect_variant_checks_in_order rLoginNoLoc).1
      (elLeaf "  아이디를 입력하세요.  ") rfl rfl
  · exact (c6_login_redirect_variant_checks_in_order rLoginErr7).2.1
      "https://lib.bible.ac.kr/Account/LogOn?ErrorCode=7" "7" rfl (by decide)
  · exact (c6_login_redirect_variant_checks_in_order rLoginOk).2.2
      "https://lib.bible.ac.kr/" "Tue, 15 Mar 2022 04:00:00 GMT" rfl (by decide) rfl

/-- C7: in the markup-variant `Login.parse` of `lib.py`, once the info
element is matched, a `HOME` text never yields a `ResourceData`; with the
`date` header also present, `HOME` yields the fixed login-failed
`ErrorData` with the response's URL as link, and any other text yields the
`ResourceData` with the given cookies, the element text as
validate-content, and `iat`. -/
theorem c7_login_markup_sentinel (r : Response) (ck : List (String × String))
    (ul liEl : Element)
    (h1 : r.soup.selectOne "#sponge-header .infoBox" = some ul)
    (h2 : (ul.select "li")[1]? = some liEl) :
    (liEl.text = "HOME" → ∀ dta l, LibPy.Login.parse r ck ≠ .ok (.resourceData dta l))
    ∧ (∀ d, r.header? "date" = some d → liEl.text = "HOME" →
      LibPy.Login.parse r ck
        = .ok (.errorData [("title", .str LibPy.loginFailedTitle)] r.url))
    ∧ (∀ d, r.header? "date" = some d → liEl.text ≠ "HOME" →
      LibPy.Login.parse r ck
        = .ok (.resourceData
            [("cookies", .strMap ck), ("validate-content", .str liEl.text),
             ("iat", .num (httpdate_to_unixtime d))] r.url)) := by
  refine ⟨?_, ?_, ?_⟩
  · intro hHome dta l
    simp only [LibPy.Login.parse, h1, h2]
    cases hd : r.header? "date" with
    | none => simp
    | some d => simp [hd, hHome]
  · intro d hd hHome
    simp [LibPy.Login.parse, h1, h2, hd, hHome]
  · intro d hd hNe
    simp [LibPy.Login.parse, h1, h2, hd, hNe]

/-- Witness for C7 at concrete inputs: the sentinel markup yields the
login-failed error, the logged-in markup yields the resource data. -/
theorem c7_login_markup_sentinel_witness :
    LibPy.Login.parse rLibLoginHome []
        = .ok (.errorData [("title", .str LibPy.loginFailedTitle)] "http://lib.bible.ac.kr")
      ∧ LibPy.Login.parse rLibLoginOk []
        = .ok (.resourceData
            [("cookies", .strMap []), ("validate-content", .str "김성경"),
             ("iat", .num 1647316800)] "http://lib.bible.ac.kr") := by
  constructor
  · exact (c7_login_markup_sentinel rLibLoginHome [] ulHome (elLeaf "HOME")
      rfl rfl).2.1 "Tue, 15 Mar 2022 04:00:00 GMT" rfl rfl
  · exact (c7_login_markup_sentinel rLibLoginOk [] ulUser (elLeaf "김성경")
      rfl rfl).2.2 "Tue, 15 Mar 2022 04:00:00 GMT" rfl (by decide)

/-- C8: whenever a login response carries a `date` header and parse
returns a `ResourceData`, that data's `iat` field is exactly
`httpdate_to_unixtime` applied to the header value — for both the
markup variant (`lib.py`) and the redirect variant (`library.py`). -/
theorem c8_iat_is_converted_date_header (r : Response) (ck : List (String × String))
    (d : String) (hd : r.header? "date" = some d) :
    (∀ dta l, LibPy.Login.parse r ck = .ok (.resourceData dta l) →
      dta.lookup "iat" = some (.num (httpdate_to_unixtime d)))
    ∧ (∀ dta l, LibraryPy.Login.parse r = .ok (.resourceData dta l) →
      dta.lookup "iat" = some (.num (httpdate_to_unixtime d))) := by
  constructor
  · intro dta l h
    simp only [LibPy.Login.parse] at h
    cases hsel : r.soup.selectOne "#sponge-header .infoBox" with
    | none => simp [hsel] at h
    | some ul =>
      simp only [hsel] at h
      cases hli : (ul.select "li")[1]? with
      | none => simp [hli] at h
      | some liEl =>
        simp only [hli, hd] at h
        by_cases hHome : liEl.text = "HOME"
        · simp [hHome] at h
        · simp [hHome] at h
          obtain ⟨hA, hl⟩ := h
          subst hA
          rfl
  · intro dta l h
    simp only [LibraryPy.Login.parse] at h
    cases hloc : r.header? "location" with
    | none =>
      simp only [hloc] at h
      cases hal : r.soup.selectOne ".alert-warning" with
      | none => simp [hal] at h
      | some alertEl => simp [hal] at h
    | some loc =>
      simp only [hloc] at h
      cases hec : findErrorCode loc with
      | some code => simp [hec] at h
      | none =>
        simp only [hec, hd] at h
        simp at h
        obtain ⟨hA, hl⟩ := h
        subst hA
        rfl

/-- Witness for C8 at a concrete input: the `lib.py` login success carries
`iat` equal to the conversion of its `date` header. -/
theorem c8_iat_is_converted_date_header_witness :
    ([("cookies", Value.strMap []), ("validate-content", Value.str "김성경"),
      ("iat", Value.num 1647316800)] : List (String × Value)).lookup "iat"
      = some (.num (httpdate_to_unixtime "Tue, 15 Mar 2022 04:00:00 GMT")) :=
  (c8_iat_is_converted_date_header rLibLoginOk [] "Tue, 15 Mar 2022 04:00:00 GMT" rfl).1
    [("cookies", Value.strMap []), ("validate-content", Value.str "김성경"),
     ("iat", Value.num 1647316800)] "http://lib.bible.ac.kr" (by decide)

/-- C10: the markup-variant `Login.parse` of `lib.py` dereferences the
info box, its second list item, and the `date` header before the `HOME`
comparison: if any of the three is missing the parse raises, and any
normally returned result implies all three were present. -/
theorem c10_login_markup_dereference_preconditions (r : Response)
    (ck : List (String × String)) :
    ((r.soup.selectOne "#sponge-header .infoBox" = none
        ∨ (∃ ul, r.soup.selectOne "#sponge-header .infoBox" = some ul
            ∧ (ul.select "li")[1]? = none)
        ∨ r.header? "date" = none) →
      ∃ f, LibPy.Login.parse r ck = .fault f)
    ∧ (∀ a, LibPy.Login.parse r ck = .ok a →
      ∃ ul liEl d, r.soup.selectOne "#sponge-header .infoBox" = some ul
        ∧ (ul.select "li")[1]? = some liEl
        ∧ r.header? "date" = some d) := by
  constructor
  · intro h
    rcases h with h | ⟨ul, hu, hl⟩ | h
    · exact ⟨.runtimeError "AttributeError: NoneType has no select",
        by simp [LibPy.Login.parse, h]⟩
    · exact ⟨.runtimeError "IndexError: li [1]",
        by simp [LibPy.Login.parse, hu, hl]⟩
    · cases hsel : r.soup.selectOne "#sponge-header .infoBox" with
      | none => exact ⟨.runtimeError "AttributeError: NoneType has no select",
          by simp [LibPy.Login.parse, hsel]⟩
      | some ul =>
        cases hli : (ul.select "li")[1]? with
        | none => exact ⟨.runtimeError "IndexError: li [1]",
            by simp [LibPy.Login.parse, hsel, hli]⟩
        | some liEl => exact ⟨.runtimeError "KeyError: date",
            by simp [LibPy.Login.parse, hsel, hli, h]⟩
  · intro a ha
    simp only [LibPy.Login.parse] at ha
    cases hsel : r.soup.selectOne "#sponge-header .infoBox" with
    | none => simp [hsel] at ha
    | some ul =>
      simp only [hsel] at ha
      cases hli : (ul.select "li")[1]? with
      | none => simp [hli] at ha
      | some liEl =>
        simp only [hli] at ha
        cases hdt : r.header? "date" with
        | none => simp [hdt] at ha
        | some d => exact ⟨ul, liEl, d, rfl, hli, rfl⟩

/-- Witness for C10 at a concrete input: sentinel markup present but no
`date` header, so the parse raises rather than returning the login-failed
error. -/
theorem c10_login_markup_dereference_witness :
    ∃ f, LibPy.Login.parse rLibLoginHomeNoDate [] = .fault f :=
  (c10_login_markup_dereference_preconditions rLibLoginHomeNoDate []).1
    (Or.inr (Or.inr rfl))

/-- A `CheckoutList` row extraction only raises Python runtime errors,
never a `ParsingError`. -/
theorem checkoutRow_not_parsingError (tr : Element) (m : String) :
    LibraryPy.CheckoutList.parse_row tr ≠ Except.error (.parsingError m) := by
  unfold LibraryPy.CheckoutList.parse_row
  repeat' split
  all_goals simp

/-- The `CheckoutList` row loop only raises Python runtime errors, never a
`ParsingError`. -/
theorem checkoutRows_not_parsingError (trs : List Element) (m : String) :
    LibraryPy.CheckoutList.parse_rows trs ≠ Except.error (.parsingError m) := by
  induction trs with
  | nil => simp [LibraryPy.CheckoutList.parse_rows]
  | cons tr rest ih =>
    simp only [LibraryPy.CheckoutList.parse_rows]
    cases h1 : LibraryPy.CheckoutList.parse_row tr with
    | error f =>
      have hne := checkoutRow_not_parsingError tr m
      rw [h1] at hne
      simpa using hne
    | ok info =>
      cases h2 : LibraryPy.CheckoutList.parse_rows rest with
      | error f =>
        rw [h2] at ih
        simpa using ih
      | ok body => simp

/-- A `Library` row extraction only raises Python runtime errors, never a
`ParsingError`. -/
theorem libRow_not_parsingError (tr : Element) (m : String) :
    LibPy.Library.parse_row tr ≠ Except.error (.parsingError m) := by
  unfold LibPy.Library.parse_row
  repeat' split
  all_goals simp

/-- The `Library` row loop only raises Python runtime errors, never a
`ParsingError`. -/
theorem libRows_not_parsingError (trs : List Element) (m : String) :
    LibPy.Library.parse_rows trs ≠ Except.error (.parsingError m) := by
  induction trs with
  | nil => simp [LibPy.Library.parse_rows]
  | cons tr rest ih =>
    simp only [LibPy.Library.parse_rows]
    cases h1 : LibPy.Library.parse_row tr with
    | error f =>
      have hne := libRow_not_parsingError tr m
      rw [h1] at hne
      simpa using hne
    | ok info =>
      cases h2 : LibPy.Library.parse_rows rest with
      | error f =>
        rw [h2] at ih
        simpa using ih
      | ok body => simp

/-- C3 counterexample: a response whose table root and header row are
present but whose body-row selector matches zero rows — the table is
found but empty — makes both variants raise `ParsingError` instead of
returning a `ResourceData` with an empty body. -/
theorem c3_counterexample_empty_table_faults :
    LibraryPy.CheckoutList.parse rEmptyTable
        = .fault (.parsingError "테이블 바디가 존재하지 않습니다.")
      ∧ LibPy.Library.parse rEmptyTable
        = .fault (.parsingError "테이블 바디가 존재하지 않습니다.") :=
  ⟨by decide, by decide⟩

/-- C3 (amended): the head extraction raises its `ParsingError` exactly
when the header-row selector matches nothing, and the body extraction
raises its `ParsingError` exactly when the body-row selector matches zero
rows — so a found-but-empty table yields a `ParsingError`, not an empty
body sequence; all other failures are Python runtime errors. -/
theorem c3_amended_parsingfault_iff (r : Response) :
    (LibraryPy.CheckoutList.parse_subject r
        = Except.error (.parsingError "테이블 헤드가 존재하지 않습니다.")
      ↔ r.soup.selectOne ".sponge-guide-Box-table thead tr" = none)
    ∧ (LibraryPy.CheckoutList.parse_main_table r
        = Except.error (.parsingError "테이블 바디가 존재하지 않습니다.")
      ↔ r.soup.select ".sponge-guide-Box-table tbody tr" = [])
    ∧ (LibPy.Library.parse_subject r
        = Except.error (.parsingError "테이블 헤드가 존재하지 않습니다.")
      ↔ r.soup.selectOne ".sponge-guide-Box-table thead tr" = none)
    ∧ (LibPy.Library.parse_main_table r
        = Except.error (.parsingError "테이블 바디가 존재하지 않습니다.")
      ↔ r.soup.select ".sponge-guide-Box-table tbody tr" = []) := by
  refine ⟨⟨?_, ?_⟩, ⟨?_, ?_⟩, ⟨?_, ?_⟩, ⟨?_, ?_⟩⟩
  · intro h
    cases hsel : r.soup.selectOne ".sponge-guide-Box-table thead tr" with
    | none => rfl
    | some thead =>
      exfalso
      simp only [LibraryPy.CheckoutList.parse_subject, hsel] at h
      repeat' split at h
      all_goals simp at h
  · intro h
    simp [LibraryPy.CheckoutList.parse_subject, h]
  · intro h
    by_cases he : (r.soup.select ".sponge-guide-Box-table tbody tr").isEmpty
    · exact List.isEmpty_iff.mp he
    · exfalso
      simp [LibraryPy.CheckoutList.parse_main_table, he] at h
      exact checkoutRows_not_parsingError _ _ h
  · intro h
    simp [LibraryPy.CheckoutList.parse_main_table, h]
  · intro h
    cases hsel : r.soup.selectOne ".sponge-guide-Box-table thead tr" with
    | none => rfl
    | some thead =>
      exfalso
      simp only [LibPy.Library.parse_subject, hsel] at h
      repeat' split at h
      all_goals simp at h
  · intro h
    simp [LibPy.Library.parse_subject, h]
  · intro h
    by_cases he : (r.soup.select ".sponge-guide-Box-table tbody tr").isEmpty
    · exact List.isEmpty_iff.mp he
    · exfalso
      simp [LibPy.Library.parse_main_table, he] at h
      exact libRows_not_parsingError _ _ h
  · intro h
    simp [LibPy.Library.parse_main_table, h]

/-- Witness for the amended C3 at a concrete input: the found-but-empty
table makes the body extraction raise its `ParsingError`. -/
theorem c3_amended_parsingfault_iff_witness :
    LibraryPy.CheckoutList.parse_main_table rEmptyTable
      = Except.error (.parsingError "테이블 바디가 존재하지 않습니다.") :=
  (c3_amended_parsingfault_iff rEmptyTable).2.1.mpr rfl

/-- The gate around a single check preserves any property of the outcome
that both the check's blocking results and the wrapped parse satisfy. -/
theorem gate_result_pred (P : ParseResult → Prop)
    (c : Response → Option APIResponseType)
    (p : Response → ParseResult) (r : Response)
    (hc : ∀ e, c r = some e → P (.ok e))
    (hp : P (p r)) :
    P (gate [c] p r) := by
  unfold gate runChecks
  cases h : c r with
  | none => exact hp
  | some e => exact hc e h

/-- C4 counterexample: two parse operations of resource parsers do not
return a `ResourceData`/`ErrorData` variant at a concrete input:
`library.py` `BookDetail.parse` returns the plain list
`[isbn, img_url]` (a `BookDetailResult`, which carries no link at all),
and `library.py` `BookPhoto.parse` returns Python `None` on a non-image
content type. -/
theorem c4_counterexample_shapes :
    LibraryPy.BookDetail.parse rDetail
        = LibraryPy.BookDetailResult.ok "9791158390982" (some "https://image.example/cover.jpg")
      ∧ LibraryPy.BookPhoto.parse rJsonPhoto = .retNone :=
  ⟨by decide, by decide⟩

/-- C4 (amended): `library.py` `Login`/`CheckoutList` and `lib.py`
`Login`/`Library`/`BookPhoto` either raise or return exactly one of the
two variants carrying the response's URL as link — never Python `None`;
`library.py` `BookPhoto.parse` returns the `ResourceData` variant with
that link on image content types (but `None` on non-image ones, and
whenever it does return a variant the link is the response's URL);
`library.py` `BookDetail.parse` returns a plain `[isbn, img_url]` list
instead. -/
theorem c4_amended_two_variants_with_link (r : Response) (ck : List (String × String)) :
    returnsVariantWithLink (LibraryPy.Login.parse r) r.url
    ∧ returnsVariantWithLink (LibraryPy.CheckoutList.parse r) r.url
    ∧ returnsVariantWithLink (LibPy.Login.parse r ck) r.url
    ∧ returnsVariantWithLink (LibPy.Library.parse r) r.url
    ∧ returnsVariantWithLink (LibPy.BookPhoto.parse r) r.url
    ∧ linkOk (LibraryPy.BookPhoto.parse r) r.url
    ∧ (∀ ct, r.header? "content-type" = some ct → pyTake ct 5 = "image" →
        LibraryPy.BookPhoto.parse r
          = .ok (.resourceData [("raw_image", .bytes r.raw)] r.url)) := by
  refine ⟨?_, ?_, ?_, ?_, ?_, ?_, ?_⟩
  · unfold LibraryPy.Login.parse
    repeat' split
    all_goals simp [returnsVariantWithLink]
  · show returnsVariantWithLink
      (gate [LibraryPy.SessionExpiredChecker.is_blocking]
        LibraryPy.CheckoutList.parse_unwrapped r) r.url
    apply gate_result_pred (fun res => returnsVariantWithLink res r.url)
    · intro e he
      unfold LibraryPy.SessionExpiredChecker.is_blocking at he
      split at he
      · simp only [Option.some.injEq] at he
        rw [← he]
        simp [returnsVariantWithLink]
      · simp at he
    · unfold LibraryPy.CheckoutList.parse_unwrapped
      repeat' split
      all_goals simp [returnsVariantWithLink]
  · unfold LibPy.Login.parse
    repeat' split
    all_goals simp [returnsVariantWithLink]
  · show returnsVariantWithLink
      (gate [LibPy.SessionExpiredChecker.is_blocking]
        LibPy.Library.parse_unwrapped r) r.url
    apply gate_result_pred (fun res => returnsVariantWithLink res r.url)
    · intro e he
      unfold LibPy.SessionExpiredChecker.is_blocking at he
      split at he
      · simp only [Option.some.injEq] at he
        rw [← he]
        simp [returnsVariantWithLink]
      · simp at he
    · unfold LibPy.Library.parse_unwrapped
      repeat' split
      all_goals simp [returnsVariantWithLink]
  · unfold LibPy.BookPhoto.parse
    repeat' split
    all_goals simp [returnsVariantWithLink]
  · unfold LibraryPy.BookPhoto.parse
    repeat' split
    all_goals simp [linkOk]
  · intro ct h1 h2
    simp [LibraryPy.BookPhoto.parse, h1, h2]

/-- Witness for the amended C4 at a concrete input: an image response
makes `library.py` `BookPhoto.parse` return the `ResourceData` variant
with the response's URL as its link. -/
theorem c4_amended_two_variants_with_link_witness :
    LibraryPy.BookPhoto.parse rImagePhoto
      = .ok (.resourceData [("raw_image", .bytes rImagePhoto.raw)] rImagePhoto.url) :=
  (c4_amended_two_variants_with_link rImagePhoto []).2.2.2.2.2.2 "image/jpeg" rfl rfl

/-- Success of `pyDel` means the index was in range and the result is one
shorter. -/
theorem pyDel_some {α} {xs ys : List α} {i : Nat} (h : pyDel xs i = some ys) :
    i < xs.length ∧ ys.length = xs.length - 1 := by
  unfold pyDel at h
  split at h
  · next hlt =>
    cases h
    exact ⟨hlt, by simp [List.length_eraseIdx, hlt]⟩
  · cases h

/-- Success of `pySet` preserves length and means the index was in
range. -/
theorem pySet_some {α} {xs ys : List α} {i : Nat} {v : α} (h : pySet xs i v = some ys) :
    ys.length = xs.length ∧ i < xs.length := by
  unfold pySet at h
  split at h
  · next hlt =>
    cases h
    exact ⟨List.length_set xs i v, hlt⟩
  · cases h

/-- Success of `pySetLast` preserves length and means the list was
nonempty. -/
theorem pySetLast_some {α} {xs ys : List α} {v : α} (h : pySetLast xs v = some ys) :
    ys.length = xs.length ∧ xs ≠ [] := by
  unfold pySetLast at h
  split at h
  · cases h
  · next hne =>
    cases h
    refine ⟨List.length_set xs (xs.length - 1) v, ?_⟩
    intro hnil
    exact hne (by simp [hnil])

/-- After a successful `pySetLast`, the last element is the written
value. -/
theorem pySetLast_getLast? {α} {xs ys : List α} {v : α} (h : pySetLast xs v = some ys) :
    ys.getLast? = some v := by
  unfold pySetLast at h
  split at h
  · cases h
  · next hne =>
    cases h
    rw [List.getLast?_eq_getElem?, List.length_set]
    exact List.getElem?_set_self (by omega)

/-- C9: on any matched header row with at least five cells, the head
transforms — delete column index 4, then rename (`library.py` also sets
index 0 to ISBN) and rename the last column — produce a head one entry
shorter than the raw header whose last entry is the renamed label:
`도서이미지` for `CheckoutList` and `도서URL` for `Library`. -/
theorem c9_head_transform (r : Response) (thead : Element)
    (h1 : r.soup.selectOne ".sponge-guide-Box-table thead tr" = some thead)
    (h5 : 5 ≤ (thead.select "th").length) :
    (∃ head, LibraryPy.CheckoutList.parse_subject r = .ok head
      ∧ head.length = (thead.select "th").length - 1
      ∧ head.getLast? = some "도서이미지")
    ∧ (∃ head, LibPy.Library.parse_subject r = .ok head
      ∧ head.length = (thead.select "th").length - 1
      ∧ head.getLast? = some "도서URL") := by
  have hlen : ((thead.select "th").map (fun th => pyStrip th.text)).length
      = (thead.select "th").length := List.length_map _ _
  have h4 : 4 < ((thead.select "th").map (fun th => pyStrip th.text)).length := by omega
  obtain ⟨d1, hdel⟩ :
      ∃ d1, pyDel ((thead.select "th").map (fun th => pyStrip th.text)) 4 = some d1 := by
    unfold pyDel
    rw [if_pos h4]
    exact ⟨_, rfl⟩
  have hd1 := pyDel_some hdel
  constructor
  · have hpos : 0 < d1.length := by omega
    obtain ⟨d2, hset⟩ : ∃ d2, pySet d1 0 "ISBN" = some d2 := by
      unfold pySet
      rw [if_pos hpos]
      exact ⟨_, rfl⟩
    have hd2 := pySet_some hset
    obtain ⟨d3, hlast⟩ : ∃ d3, pySetLast d2 "도서이미지" = some d3 := by
      unfold pySetLast
      rw [if_neg (by omega)]
      exact ⟨_, rfl⟩
    have hd3 := pySetLast_some hlast
    refine ⟨d3, ?_, by omega, pySetLast_getLast? hlast⟩
    simp only [LibraryPy.CheckoutList.parse_subject, h1, hdel, hset, hlast]
  · have hne : d1.length ≠ 0 := by omega
    obtain ⟨d3, hlast⟩ : ∃ d3, pySetLast d1 "도서URL" = some d3 := by
      unfold pySetLast
      rw [if_neg hne]
      exact ⟨_, rfl⟩
    have hd3 := pySetLast_some hlast
    refine ⟨d3, ?_, by omega, pySetLast_getLast? hlast⟩
    simp only [LibPy.Library.parse_subject, h1, hdel, hlast]

/-- Witness for C9 at a concrete seven-column header row. -/
theorem c9_head_transform_witness :
    (∃ head, LibraryPy.CheckoutList.parse_subject rCoAligned = .ok head
      ∧ head.length = (theadRow7.select "th").length - 1
      ∧ head.getLast? = some "도서이미지")
    ∧ (∃ head, LibPy.Library.parse_subject rCoAligned = .ok head
      ∧ head.length = (theadRow7.select "th").length - 1
      ∧ head.getLast? = some "도서URL") :=
  c9_head_transform rCoAligned theadRow7 rfl (by decide)

/-- A successful `CheckoutList` head extraction is one shorter than the
matched header row, which had at least five cells. -/
theorem co_subject_length (r : Response) (head : List String)
    (h : LibraryPy.CheckoutList.parse_subject r = .ok head) :
    head.length = theadThCount r - 1 ∧ 5 ≤ theadThCount r := by
  simp only [LibraryPy.CheckoutList.parse_subject] at h
  cases hsel : r.soup.selectOne ".sponge-guide-Box-table thead tr" with
  | none => simp [hsel] at h
  | some thead =>
    simp only [hsel] at h
    have ht : theadThCount r = (thead.select "th").length := by
      unfold theadThCount
      rw [hsel]
    cases hdel : pyDel ((thead.select "th").map (fun th => pyStrip th.text)) 4 with
    | none => simp [hdel] at h
    | some d1 =>
      simp only [hdel] at h
      cases hset : pySet d1 0 "ISBN" with
      | none => simp [hset] at h
      | some d2 =>
        simp only [hset] at h
        cases hlast : pySetLast d2 "도서이미지" with
        | none => simp [hlast] at h
        | some d3 =>
          simp only [hlast, Except.ok.injEq] at h
          subst h
          have a1 := pyDel_some hdel
          have a2 := pySet_some hset
          have a3 := pySetLast_some hlast
          have hm : ((thead.select "th").map (fun th => pyStrip th.text)).length
              = (thead.select "th").length := List.length_map _ _
          rw [ht]
          omega

/-- A successful `Library` head extraction is one shorter than the
matched header row, which had at least five cells. -/
theorem lib_subject_length (r : Response) (head : List String)
    (h : LibPy.Library.parse_subject r = .ok head) :
    head.length = theadThCount r - 1 ∧ 5 ≤ theadThCount r := by
  simp only [LibPy.Library.parse_subject] at h
  cases hsel : r.soup.selectOne ".sponge-guide-Box-table thead tr" with
  | none => simp [hsel] at h
  | some thead =>
    simp only [hsel] at h
    have ht : theadThCount r = (thead.select "th").length := by
      unfold theadThCount
      rw [hsel]
    cases hdel : pyDel ((thead.select "th").map (fun th => pyStrip th.text)) 4 with
    | none => simp [hdel] at h
    | some d1 =>
      simp only [hdel] at h
      cases hlast : pySetLast d1 "도서URL" with
      | none => simp [hlast] at h
      | some d3 =>
        simp only [hlast, Except.ok.injEq] at h
        subst h
        have a1 := pyDel_some hdel
        have a3 := pySetLast_some hlast
        have hm : ((thead.select "th").map (fun th => pyStrip th.text)).length
            = (thead.select "th").length := List.length_map _ _
        rw [ht]
        omega

/-- A successful `CheckoutList` row extraction is one shorter than the
row's `td` cells, of which there were at least five. -/
theorem co_row_length (tr : Element) (row : List String)
    (h : LibraryPy.CheckoutList.parse_row tr = .ok row) :
    row.length = (tr.select "td").length - 1 ∧ 5 ≤ (tr.select "td").length := by
  simp only [LibraryPy.CheckoutList.parse_row] at h
  cases hs : tr.selectOne "td a strong" with
  | none => simp [hs] at h
  | some strong =>
    simp only [hs] at h
    cases h1 : pySet ((tr.select "td").map (fun td => pyStrip td.text)) 1 (pyStrip strong.text) with
    | none => simp [h1] at h
    | some i1 =>
      simp only [h1] at h
      cases h2 : (tr.select ".left a").head? with
      | none => simp [h2] at h
      | some a =>
        simp only [h2] at h
        cases h3 : a.attr "href" with
        | none => simp [h3] at h
        | some href =>
          simp only [h3] at h
          cases h4 : pySetLast i1 href with
          | none => simp [h4] at h
          | some i2 =>
            simp only [h4] at h
            cases h5 : pyDel i2 4 with
            | none => simp [h5] at h
            | some i3 =>
              simp only [h5, Except.ok.injEq] at h
              subst h
              have a1 := pySet_some h1
              have a2 := pySetLast_some h4
              have a3 := pyDel_some h5
              have hm : ((tr.select "td").map (fun td => pyStrip td.text)).length
                  = (tr.select "td").length := List.length_map _ _
              omega

/-- A successful `Library` row extraction always has exactly eight
fields. -/
theorem lib_row_length (tr : Element) (row : List String)
    (h : LibPy.Library.parse_row tr = .ok row) : row.length = 8 := by
  simp only [LibPy.Library.parse_row] at h
  repeat' split at h
  all_goals (try simp only [Except.ok.injEq] at h)
  all_goals (try subst h)
  all_goals simp_all

/-- Every row of a successful `CheckoutList` row loop comes from one of
the row elements. -/
theorem co_rows_mem (trs : List Element) (body : List (List String))
    (h : LibraryPy.CheckoutList.parse_rows trs = .ok body) :
    ∀ row ∈ body, ∃ tr ∈ trs, LibraryPy.CheckoutList.parse_row tr = .ok row := by
  induction trs generalizing body with
  | nil =>
    simp only [LibraryPy.CheckoutList.parse_rows, Except.ok.injEq] at h
    subst h
    simp
  | cons tr rest ih =>
    simp only [LibraryPy.CheckoutList.parse_rows] at h
    cases h1 : LibraryPy.CheckoutList.parse_row tr with
    | error f => simp [h1] at h
    | ok info =>
      simp only [h1] at h
      cases h2 : LibraryPy.CheckoutList.parse_rows rest with
      | error f => simp [h2] at h
      | ok body2 =>
        simp only [h2, Except.ok.injEq] at h
        subst h
        intro row hrow
        rcases List.mem_cons.mp hrow with hr | hr
        · subst hr
          exact ⟨tr, List.mem_cons_self tr rest, h1⟩
        · rcases ih body2 h2 row hr with ⟨tr2, htr2, hp⟩
          exact ⟨tr2, List.mem_cons_of_mem tr htr2, hp⟩

/-- Every row of a successful `Library` row loop comes from one of the
row elements. -/
theorem lib_rows_mem (trs : List Element) (body : List (List String))
    (h : LibPy.Library.parse_rows trs = .ok body) :
    ∀ row ∈ body, ∃ tr ∈ trs, LibPy.Library.parse_row tr = .ok row := by
  induction trs generalizing body with
  | nil =>
    simp only [LibPy.Library.parse_rows, Except.ok.injEq] at h
    subst h
    simp
  | cons tr rest ih =>
    simp only [LibPy.Library.parse_rows] at h
    cases h1 : LibPy.Library.parse_row tr with
    | error f => simp [h1] at h
    | ok info =>
      simp only [h1] at h
      cases h2 : LibPy.Library.parse_rows rest with
      | error f => simp [h2] at h
      | ok body2 =>
        simp only [h2, Except.ok.injEq] at h
        subst h
        intro row hrow
        rcases List.mem_cons.mp hrow with hr | hr
        · subst hr
          exact ⟨tr, List.mem_cons_self tr rest, h1⟩
        · rcases ih body2 h2 row hr with ⟨tr2, htr2, hp⟩
          exact ⟨tr2, List.mem_cons_of_mem tr htr2, hp⟩

/-- The two source files define textually identical session-expired
checkers. -/
theorem checkers_eq :
    LibPy.SessionExpiredChecker.is_blocking = LibraryPy.SessionExpiredChecker.is_blocking := rfl

/-- The session-expired checker only ever blocks with an `ErrorData`. -/
theorem is_blocking_errorData (r : Response) (e : APIResponseType)
    (h : LibraryPy.SessionExpiredChecker.is_blocking r = some e) :
    ∃ err lnk, e = .errorData err lnk := by
  unfold LibraryPy.SessionExpiredChecker.is_blocking at h
  split at h
  · simp only [Option.some.injEq] at h
    exact ⟨_, _, h.symm⟩
  · cases h

/-- A gated parse that returned a `ResourceData` behaves as its body: a
check that only blocks with `ErrorData` cannot have produced it. -/
theorem gate_ok_resourceData (c : Response → Option APIResponseType)
    (p : Response → ParseResult) (r : Response) (dta : List (String × Value)) (l : String)
    (hc : ∀ e, c r = some e → ∃ err lnk, e = .errorData err lnk)
    (h : gate [c] p r = .ok (.resourceData dta l)) :
    p r = .ok (.resourceData dta l) := by
  unfold gate runChecks at h
  cases hcheck : c r with
  | none => simpa [hcheck] using h
  | some e =>
    simp only [hcheck] at h
    rcases hc e hcheck with ⟨err, lnk, he⟩
    subst he
    simp at h

/-- C5 counterexample: a six-column header over the eight-field `lib.py`
row extraction parses successfully into a `ResourceData` whose head has
five entries while its only row has eight — head and body are not
index-aligned. -/
theorem c5_counterexample_misaligned :
    LibPy.Library.parse rMismatch
        = .ok (.resourceData
            [("head", .strList ["ISBN", "서지정보", "대출일자", "반납예정일", "도서URL"]),
             ("body", .table [["1", "성경과 역사", "2023-01-01", "2023-01-15", "대출중",
                               "연기", "0회", "/Search/Detail/123"]])]
            "https://lib.bible.ac.kr/MyLibrary")
      ∧ alignedTable (LibPy.Library.parse rMismatch) = false :=
  ⟨by decide, by decide⟩

/-- C5 (amended): alignment holds when the raw table matches its header:
for `CheckoutList`, if every body row has as many `td` cells as the
header has `th` cells, every extracted row is as long as the head; for
`Library`, whose rows always extract to eight fields, the same holds when
the header has nine cells. -/
theorem c5_amended_alignment (r : Response) (head : List String)
    (body : List (List String)) :
    (LibraryPy.CheckoutList.parse r
        = .ok (.resourceData [("head", .strList head), ("body", .table body)] r.url) →
      (∀ tr ∈ r.soup.select ".sponge-guide-Box-table tbody tr",
        (tr.select "td").length = theadThCount r) →
      ∀ row ∈ body, row.length = head.length)
    ∧ (LibPy.Library.parse r
        = .ok (.resourceData [("head", .strList head), ("body", .table body)] r.url) →
      theadThCount r = 9 →
      ∀ row ∈ body, row.length = head.length) := by
  constructor
  · intro h htd row hrow
    have hb : LibraryPy.CheckoutList.parse_unwrapped r
        = .ok (.resourceData [("head", .strList head), ("body", .table body)] r.url) :=
      gate_ok_resourceData _ _ _ _ _ (fun e he => is_blocking_errorData r e he) h
    simp only [LibraryPy.CheckoutList.parse_unwrapped] at hb
    cases hsub : LibraryPy.CheckoutList.parse_subject r with
    | error f => simp [hsub] at hb
    | ok head2 =>
      simp only [hsub] at hb
      cases hmain : LibraryPy.CheckoutList.parse_main_table r with
      | error f => simp [hmain] at hb
      | ok body2 =>
        simp only [hmain] at hb
        simp at hb
        obtain ⟨hh, hbod⟩ := hb
        subst hh
        subst hbod
        simp only [LibraryPy.CheckoutList.parse_main_table] at hmain
        by_cases he : (r.soup.select ".sponge-guide-Box-table tbody tr").isEmpty = true
        · rw [if_pos he] at hmain
          simp at hmain
        · rw [if_neg he] at hmain
          rcases co_rows_mem _ _ hmain row hrow with ⟨tr, htr, hrowp⟩
          have hl := co_row_length tr row hrowp
          have hs := co_subject_length r head2 hsub
          have htc := htd tr htr
          omega
  · intro h h9 row hrow
    have hb : LibPy.Library.parse_unwrapped r
        = .ok (.resourceData [("head", .strList head), ("body", .table body)] r.url) :=
      gate_ok_resourceData _ _ _ _ _
        (fun e he => is_blocking_errorData r e (by rw [← checkers_eq]; exact he)) h
    simp only [LibPy.Library.parse_unwrapped] at hb
    cases hsub : LibPy.Library.parse_subject r with
    | error f => simp [hsub] at hb
    | ok head2 =>
      simp only [hsub] at hb
      cases hmain : LibPy.Library.parse_main_table r with
      | error f => simp [hmain] at hb
      | ok body2 =>
        simp only [hmain] at hb
        simp at hb
        obtain ⟨hh, hbod⟩ := hb
        subst hh
        subst hbod
        simp only [LibPy.Library.parse_main_table] at hmain
        by_cases he : (r.soup.select ".sponge-guide-Box-table tbody tr").isEmpty = true
        · rw [if_pos he] at hmain
          simp at hmain
        · rw [if_neg he] at hmain
          rcases lib_rows_mem _ _ hmain row hrow with ⟨tr, htr, hrowp⟩
          have hl := lib_row_length tr row hrowp
          have hs := lib_subject_length r head2 hsub
          omega

/-- Witness for the amended C5 at concrete aligned tables: a seven-column
checkout table and a nine-column library table both extract with
`row.length = head.length`. -/
theorem c5_amended_alignment_witness :
    (["9791158390982", "성경과 역사", "2023-01-01", "2023-01-15", "연기신청",
      "/Search/Detail/123"] : List String).length
        = (["ISBN", "서지정보", "대출일자", "반납예정일", "연기신청",
            "도서이미지"] : List String).length
      ∧ (["1", "성경과 역사", "2023-01-01", "2023-01-15", "대출중", "연기", "0회",
          "/Search/Detail/123"] : List String).length
        = (["번호", "서지정보", "대출일자", "반납예정일", "연기", "연기신청", "연기횟수",
            "도서URL"] : List String).length :=
  ⟨(c5_amended_alignment rCoAligned
      ["ISBN", "서지정보", "대출일자", "반납예정일", "연기신청", "도서이미지"]
      [["9791158390982", "성경과 역사", "2023-01-01", "2023-01-15", "연기신청",
        "/Search/Detail/123"]]).1 (by decide) (by decide)
      ["9791158390982", "성경과 역사", "2023-01-01", "2023-01-15", "연기신청",
       "/Search/Detail/123"] (by decide),
   (c5_amended_alignment rLibAligned
      ["번호", "서지정보", "대출일자", "반납예정일", "연기", "연기신청", "연기횟수", "도서URL"]
      [["1", "성경과 역사", "2023-01-01", "2023-01-15", "대출중", "연기", "0회",
        "/Search/Detail/123"]]).2 (by decide) (by decide)
      ["1", "성경과 역사", "2023-01-01", "2023-01-15", "대출중", "연기", "0회",
       "/Search/Detail/123"] (by decide)⟩
